import Mathlib

/-!
Shallow embedding of the POI profile-scoring pipeline of the `loktis`
repository (backend/location_analysis), together with proofs about it.

Number model: Python floats are modelled as exact rationals (`ℚ`); the one
place where a transcendental function appears (the diminishing-returns
saturation `100 * (1 - exp (-k * x))` of the scoring engine) is modelled
over `ℝ` with `Real.exp`.  Python `int()` truncation, `round()` (banker's
rounding) and `str.lower()` (ASCII inputs) are modelled explicitly below.
-/

namespace Loktis

/-- Python `round` on an exact rational: round half to even. -/
def pyRound (q : ℚ) : ℤ :=
  let f := Int.floor q
  let frac := q - f
  if frac < 1/2 then f
  else if 1/2 < frac then f + 1
  else if f % 2 = 0 then f else f + 1

/-- Python `int()` on an exact rational: truncation toward zero. -/
def pyInt (q : ℚ) : ℤ :=
  if q < 0 then -Int.floor (-q) else Int.floor q

/-- Python `str.lower()` (the repository's keys and names are ASCII). -/
def pyLower (s : String) : String := ⟨s.data.map Char.toLower⟩

/-- Python truthiness of an optional number (`None` and `0` are falsy). -/
def truthyQ : Option ℚ → Prop
  | none => False
  | some x => x ≠ 0

instance : DecidablePred truthyQ := fun o =>
  match o with
  | none => Decidable.isFalse id
  | some x => inferInstanceAs (Decidable (x ≠ 0))

/-- Python truthiness of an optional integer (`None` and `0` are falsy). -/
def truthyZ : Option ℤ → Prop
  | none => False
  | some x => x ≠ 0

instance : DecidablePred truthyZ := fun o =>
  match o with
  | none => Decidable.isFalse id
  | some x => inferInstanceAs (Decidable (x ≠ 0))

/-- Python truthiness of an optional string (`None` and `""` are falsy). -/
def truthyS : Option String → Prop
  | none => False
  | some s => s ≠ ""

instance : DecidablePred truthyS := fun o =>
  match o with
  | none => Decidable.isFalse id
  | some s => inferInstanceAs (Decidable (s ≠ ""))

/-- Python `a or b` on optional integers: `a` if truthy, else `b`. -/
def pyOrZ (a b : Option ℤ) : Option ℤ := if truthyZ a then a else b

/-- Python `a or b` on optional strings: `a` if truthy, else `b`. -/
def pyOrS (a b : Option String) : Option String := if truthyS a then a else b

/-! ## `scoring/profiles.py` -/

/-- `DecayMode` enum of `scoring/profiles.py`. -/
inductive DecayMode
  | daily
  | destination
  | background
deriving DecidableEq, Repr

/-- Default decay mode per category (`DEFAULT_DECAY_MODES`). -/
def DEFAULT_DECAY_MODES : List (String × DecayMode) :=
  [("shops", .daily), ("transport", .daily), ("education", .destination),
   ("health", .destination), ("nature_place", .destination),
   ("nature_background", .background), ("leisure", .destination),
   ("food", .destination), ("finance", .daily), ("car_access", .destination)]

/-- `distance_score(distance_m, max_radius_m, mode)` of `scoring/profiles.py`:
a 4-tier step function on the ratio `distance / radius`, and `0` at or
beyond the radius. -/
def distance_score (distance_m max_radius_m : ℚ) (mode : DecayMode) : ℚ :=
  if max_radius_m ≤ distance_m then 0
  else
    let ratio := distance_m / max_radius_m
    match mode with
    | .daily =>
      if ratio ≤ 1/4 then 100
      else if ratio ≤ 1/2 then 70
      else if ratio ≤ 4/5 then 40
      else 15
    | .destination =>
      if ratio ≤ 3/10 then 100
      else if ratio ≤ 3/5 then 75
      else if ratio ≤ 9/10 then 45
      else 20
    | .background =>
      if ratio ≤ 1/5 then 100
      else if ratio ≤ 2/5 then 60
      else if ratio ≤ 3/5 then 25
      else 10

/-- `VerdictThresholds` of `scoring/profiles.py`. -/
structure VerdictThresholds where
  recommended : ℤ
  conditional : ℤ
deriving DecidableEq, Repr

/-- `VerdictThresholds.get_verdict`. -/
def VerdictThresholds.get_verdict (t : VerdictThresholds) (score : ℚ) : String :=
  if (t.recommended : ℚ) ≤ score then "recommended"
  else if (t.conditional : ℚ) ≤ score then "conditional"
  else "not_recommended"

/-- `CriticalCap` of `scoring/profiles.py`. -/
structure CriticalCap where
  threshold : ℚ
  cap : ℚ
deriving DecidableEq, Repr

/-- `ProfileConfig` of `scoring/profiles.py`.  The display-only fields
(`name`, `description`, `emoji`, `version`) are not modelled; no claim
depends on them. -/
structure ProfileConfig where
  key : String
  weights : List (String × ℚ)
  radius_m : List (String × ℤ)
  thresholds : VerdictThresholds
  critical_caps : List (String × CriticalCap)
  decay_modes : List (String × DecayMode)
deriving DecidableEq, Repr

/-- `ProfileConfig.get_decay_mode`. -/
def ProfileConfig.get_decay_mode (p : ProfileConfig) (category : String) : DecayMode :=
  ((p.decay_modes.lookup category).or (DEFAULT_DECAY_MODES.lookup category)).getD .destination

/-- `ProfileConfig.get_weight` (0 if absent). -/
def ProfileConfig.get_weight (p : ProfileConfig) (category : String) : ℚ :=
  (p.weights.lookup category).getD 0

/-- `ProfileConfig.get_radius` (default 1000 m). -/
def ProfileConfig.get_radius (p : ProfileConfig) (category : String) : ℤ :=
  (p.radius_m.lookup category).getD 1000

/-- `PROFILE_URBAN`. -/
def PROFILE_URBAN : ProfileConfig :=
  { key := "urban"
    weights :=
      [("transport", 1/4), ("food", 9/50), ("shops", 4/25), ("leisure", 3/25),
       ("health", 2/25), ("finance", 1/20), ("nature_place", 3/50),
       ("nature_background", 3/100), ("education", 1/50), ("noise", -(3/100))]
    radius_m :=
      [("transport", 700), ("food", 800), ("shops", 600), ("leisure", 800),
       ("health", 1200), ("finance", 800), ("nature_place", 900),
       ("nature_background", 450), ("education", 900)]
    thresholds := { recommended := 65, conditional := 45 }
    critical_caps :=
      [("transport", { threshold := 35, cap := 65 }),
       ("food", { threshold := 25, cap := 75 })]
    decay_modes := [] }

/-- `PROFILE_FAMILY`. -/
def PROFILE_FAMILY : ProfileConfig :=
  { key := "family"
    weights :=
      [("education", 1/4), ("health", 4/25), ("nature_place", 4/25),
       ("shops", 7/50), ("transport", 1/10), ("leisure", 2/25),
       ("nature_background", 3/50), ("food", 3/100), ("finance", 1/50),
       ("noise", -(1/25))]
    radius_m :=
      [("education", 1200), ("health", 1500), ("nature_place", 900),
       ("shops", 700), ("transport", 900), ("leisure", 700),
       ("nature_background", 450), ("food", 700), ("finance", 900)]
    thresholds := { recommended := 65, conditional := 45 }
    critical_caps :=
      [("education", { threshold := 35, cap := 70 }),
       ("nature_place", { threshold := 30, cap := 75 })]
    decay_modes := [] }

/-- `PROFILE_QUIET_GREEN`. -/
def PROFILE_QUIET_GREEN : ProfileConfig :=
  { key := "quiet_green"
    weights :=
      [("nature_place", 11/50), ("nature_background", 1/5), ("noise", -(3/25)),
       ("shops", 3/25), ("transport", 2/25), ("health", 1/10),
       ("leisure", 1/10), ("food", 1/20), ("education", 1/20),
       ("finance", 3/100)]
    radius_m :=
      [("nature_place", 1200), ("nature_background", 500), ("shops", 900),
       ("transport", 1200), ("health", 2000), ("leisure", 1200),
       ("food", 1200), ("education", 1500), ("finance", 1000)]
    thresholds := { recommended := 65, conditional := 45 }
    critical_caps :=
      [("noise", { threshold := 40, cap := 60 }),
       ("nature_background", { threshold := 35, cap := 75 })]
    decay_modes := [] }

/-- `PROFILE_REMOTE_WORK`. -/
def PROFILE_REMOTE_WORK : ProfileConfig :=
  { key := "remote_work"
    weights :=
      [("noise", -(1/10)), ("shops", 9/50), ("health", 7/50),
       ("nature_background", 3/25), ("nature_place", 1/10), ("transport", 1/10),
       ("food", 2/25), ("leisure", 1/10), ("education", 3/100),
       ("finance", 1/20)]
    radius_m :=
      [("shops", 700), ("health", 1500), ("nature_background", 450),
       ("nature_place", 900), ("transport", 1000), ("food", 900),
       ("leisure", 900), ("education", 1200), ("finance", 800)]
    thresholds := { recommended := 65, conditional := 45 }
    critical_caps := [("noise", { threshold := 45, cap := 70 })]
    decay_modes := [] }

/-- `PROFILE_ACTIVE_SPORT`. -/
def PROFILE_ACTIVE_SPORT : ProfileConfig :=
  { key := "active_sport"
    weights :=
      [("leisure", 11/50), ("nature_place", 9/50), ("nature_background", 7/50),
       ("shops", 3/25), ("health", 1/10), ("transport", 2/25),
       ("food", 3/50), ("noise", -(1/20)), ("finance", 1/20),
       ("education", 0)]
    radius_m :=
      [("leisure", 1200), ("nature_place", 1200), ("nature_background", 500),
       ("shops", 800), ("transport", 1000), ("health", 1800),
       ("food", 900), ("finance", 1000), ("education", 1500)]
    thresholds := { recommended := 65, conditional := 45 }
    critical_caps := []
    decay_modes := [] }

/-- `PROFILE_CAR_FIRST`. -/
def PROFILE_CAR_FIRST : ProfileConfig :=
  { key := "car_first"
    weights :=
      [("car_access", 1/5), ("noise", -(2/25)), ("shops", 4/25),
       ("health", 3/25), ("nature_place", 1/10), ("nature_background", 1/10),
       ("leisure", 1/10), ("transport", 3/50), ("education", 1/10),
       ("food", 1/25), ("finance", 1/50)]
    radius_m :=
      [("shops", 1200), ("health", 2500), ("education", 2000),
       ("transport", 1500), ("nature_place", 1500), ("nature_background", 600),
       ("leisure", 1500), ("food", 1200), ("finance", 1200),
       ("car_access", 1000)]
    thresholds := { recommended := 65, conditional := 45 }
    critical_caps := [("car_access", { threshold := 35, cap := 70 })]
    decay_modes := [] }

/-- `PROFILE_INVESTOR`. -/
def PROFILE_INVESTOR : ProfileConfig :=
  { key := "investor"
    weights :=
      [("transport", 1/4), ("shops", 9/50), ("education", 3/20),
       ("food", 3/25), ("health", 2/25), ("finance", 2/25),
       ("leisure", 3/50), ("nature_place", 1/25), ("nature_background", 1/50),
       ("noise", -(1/50))]
    radius_m :=
      [("transport", 800), ("shops", 700), ("education", 1500),
       ("food", 900), ("health", 1500), ("finance", 800),
       ("leisure", 1000), ("nature_place", 1200), ("nature_background", 500)]
    thresholds := { recommended := 60, conditional := 40 }
    critical_caps := [("transport", { threshold := 30, cap := 65 })]
    decay_modes := [] }

/-- `PROFILE_REGISTRY` of `scoring/profiles.py`. -/
def PROFILE_REGISTRY : List (String × ProfileConfig) :=
  [("urban", PROFILE_URBAN), ("family", PROFILE_FAMILY),
   ("quiet_green", PROFILE_QUIET_GREEN), ("remote_work", PROFILE_REMOTE_WORK),
   ("active_sport", PROFILE_ACTIVE_SPORT), ("car_first", PROFILE_CAR_FIRST),
   ("investor", PROFILE_INVESTOR)]

/-- `get_profile(profile_key)` of `scoring/profiles.py`:
`PROFILE_REGISTRY.get(profile_key.lower(), PROFILE_REGISTRY[DEFAULT_PROFILE_KEY])`,
with `DEFAULT_PROFILE_KEY = "family"` (and `PROFILE_REGISTRY["family"]`
is `PROFILE_FAMILY`). -/
def get_profile (profile_key : String) : ProfileConfig :=
  match PROFILE_REGISTRY.lookup (pyLower profile_key) with
  | some cfg => cfg
  | none => PROFILE_FAMILY

/-! ## `scoring/profile_engine.py` -/

namespace Engine

/-- The fields of a POI read by `ProfileScoringEngine` (`poi.name`,
`poi.distance_m`, `poi.subcategory`, and the tag entries `rating`,
`user_ratings_total`, `reviews_count`, `low_reviews`, `_nameless`). -/
structure POI where
  name : String
  distance_m : ℚ
  subcategory : String
  rating : Option ℚ
  user_ratings_total : Option ℤ
  reviews_count : Option ℤ
  low_reviews : Bool
  nameless : Bool
deriving DecidableEq, Repr

/-- Engine constants (class attributes of `ProfileScoringEngine`). -/
def MAX_POIS_FOR_SCORE : ℕ := 10

/-- `COVERAGE_BONUS_3`. -/
def COVERAGE_BONUS_3 : ℚ := 5

/-- `COVERAGE_BONUS_6`. -/
def COVERAGE_BONUS_6 : ℚ := 10

/-- `DAILY_CATEGORIES`. -/
def DAILY_CATEGORIES : List String := ["shops", "transport", "finance"]

/-- `NAMELESS_WEIGHT`. -/
def NAMELESS_WEIGHT : ℚ := 3/5

/-- `MAX_BASE_ADJUSTMENT`. -/
def MAX_BASE_ADJUSTMENT : ℚ := 20

/-- `MIN_DISTANCE_FACTOR`. -/
def MIN_DISTANCE_FACTOR : ℚ := 2/5

/-- `DEFAULT_SATURATION_K`. -/
def DEFAULT_SATURATION_K : ℚ := 1/200

/-- `SATURATION_K` per category. -/
def SATURATION_K : List (String × ℚ) :=
  [("shops", 3/500), ("transport", 13/2000), ("education", 9/2000),
   ("health", 9/2000), ("nature_place", 1/250), ("nature_background", 7/2000),
   ("leisure", 9/2000), ("food", 7/2000), ("finance", 3/500)]

/-- `CATEGORY_NAMES_PL` (display names used in cap messages). -/
def CATEGORY_NAMES_PL : List (String × String) :=
  [("shops", "Sklepy"), ("transport", "Transport publiczny"),
   ("education", "Edukacja"), ("health", "Zdrowie"),
   ("nature_place", "Parki i ogrody"), ("nature_background", "Zielen w otoczeniu"),
   ("leisure", "Sport i rekreacja"), ("food", "Gastronomia"),
   ("finance", "Banki i finanse"), ("noise", "Poziom halasu"),
   ("car_access", "Dostep samochodem")]

/-- `ProfileScoringEngine._calculate_quality_multiplier`:
`rating` falsy gives `1.0`; else the rating multiplier
`0.90 + 0.20 * (rating / 5)` is blended toward `1.0` by the review-count
confidence `min(1, reviews / 200)` (default `0.3` when `reviews` is falsy),
after being capped at `1.0` when the `low_reviews` tag is set. -/
def quality_multiplier (poi : POI) : ℚ :=
  let rating := poi.rating
  let reviews := pyOrZ poi.user_ratings_total poi.reviews_count
  if ¬ truthyQ rating then 1
  else
    let rating_mult : ℚ := 9/10 + 1/5 * (rating.getD 0 / 5)
    let reviews_confidence : ℚ :=
      if truthyZ reviews then min 1 ((reviews.getD 0 : ℚ) / 200) else 3/10
    let rating_mult := if poi.low_reviews then min rating_mult 1 else rating_mult
    1 + (rating_mult - 1) * reviews_confidence

/-- `ProfileScoringEngine._distance_factor`. -/
def distance_factor (nearest_distance_m : Option ℚ) (radius : ℤ) (decay_mode : DecayMode) : ℚ :=
  match nearest_distance_m with
  | none => 0
  | some d =>
    let nearest_score := distance_score d (radius : ℚ) decay_mode / 100
    MIN_DISTANCE_FACTOR + (1 - MIN_DISTANCE_FACTOR) * nearest_score

/-- `ProfileScoringEngine._saturating_score`:
`min(100, 100 * (1 - exp(-k * value)))`, and `0` for `value <= 0`. -/
noncomputable def saturating_score (value k : ℚ) : ℝ :=
  if value ≤ 0 then 0
  else min 100 (100 * (1 - Real.exp (-(k : ℝ) * (value : ℝ))))

/-- Per-poi data recorded in `POIContribution` (only the numeric fields
used by the claims). -/
structure POIContribution where
  name : String
  distance_m : ℚ
  dist_score : ℚ
  qual_mult : ℚ
  final_contribution : ℚ
deriving DecidableEq, Repr

/-- Comparison used for Python's stable `sorted(pois, key=distance_m)`. -/
def distLE (p q : POI) : Prop := p.distance_m ≤ q.distance_m

instance : DecidableRel distLE := fun p q =>
  inferInstanceAs (Decidable (p.distance_m ≤ q.distance_m))

instance : IsTotal POI distLE := ⟨fun p q => le_total p.distance_m q.distance_m⟩

instance : IsTrans POI distLE := ⟨fun _ _ _ h h2 => le_trans h h2⟩

/-- `sorted(pois, key=lambda p: p.distance_m)[:MAX_POIS_FOR_SCORE]`
(a stable sort; `List.insertionSort` is stable). -/
def sorted_top_pois (pois : List POI) : List POI :=
  (List.insertionSort distLE pois).take MAX_POIS_FOR_SCORE

/-- One iteration of the contribution loop in `_calculate_category_score`:
`distance_score * quality_multiplier * nameless_multiplier`. -/
def poi_contribution (profile : ProfileConfig) (category : String) (radius : ℤ)
    (poi : POI) : POIContribution :=
  let dist_score := distance_score poi.distance_m (radius : ℚ) (profile.get_decay_mode category)
  let quality_mult := quality_multiplier poi
  let nameless_mult := if poi.nameless then NAMELESS_WEIGHT else 1
  { name := poi.name
    distance_m := poi.distance_m
    dist_score := dist_score
    qual_mult := quality_mult * nameless_mult
    final_contribution := dist_score * quality_mult * nameless_mult }

/-- The raw utility sum of `_calculate_category_score`. -/
def category_utility_sum (profile : ProfileConfig) (category : String) (radius : ℤ)
    (sorted_pois : List POI) : ℚ :=
  ((sorted_pois.map (poi_contribution profile category radius)).map
    (·.final_contribution)).sum

/-- The coverage bonus of `_calculate_category_score` (daily categories
only: +10 for >= 6, +5 for >= 3 POIs within 80% of the radius). -/
def category_coverage_bonus (category : String) (radius : ℤ)
    (sorted_pois : List POI) : ℚ :=
  if category ∈ DAILY_CATEGORIES then
    let sensible_pois := sorted_pois.filter (fun p => p.distance_m ≤ (radius : ℚ) * (4/5))
    if 6 ≤ sensible_pois.length then COVERAGE_BONUS_6
    else if 3 ≤ sensible_pois.length then COVERAGE_BONUS_3
    else 0
  else 0

/-- `CategoryScoreResult` (numeric fields). -/
structure CategoryScoreResult where
  category : String
  score : ℝ
  utility_score : ℝ
  utility_sum : ℚ
  coverage_bonus : ℚ
  nearest_distance_m : Option ℚ
  poi_count : ℕ
  radius_used : ℤ
  contributions : List POIContribution

/-- `ProfileScoringEngine._calculate_category_score` for the POI-list
path (calls with `nature_metrics=None`; the `nature_background` metric
branch, lines 521-584 of `profile_engine.py`, is reached by no claim and
is not modelled). -/
noncomputable def calculate_category_score (profile : ProfileConfig) (category : String)
    (pois : List POI) (radius : ℤ) : CategoryScoreResult :=
  if pois = [] then
    { category := category, score := 0, utility_score := 0, utility_sum := 0
      coverage_bonus := 0, nearest_distance_m := none, poi_count := 0
      radius_used := radius, contributions := [] }
  else
    let sorted_pois := sorted_top_pois pois
    let contributions := sorted_pois.map (poi_contribution profile category radius)
    let utility_sum := category_utility_sum profile category radius sorted_pois
    let saturation_k := (SATURATION_K.lookup category).getD DEFAULT_SATURATION_K
    let utility_score := saturating_score utility_sum saturation_k
    let coverage_bonus := category_coverage_bonus category radius sorted_pois
    let score_before_distance : ℝ := min 100 (utility_score + (coverage_bonus : ℝ))
    let nearest_distance := (sorted_pois.head?).map (·.distance_m)
    let d_factor := distance_factor nearest_distance radius (profile.get_decay_mode category)
    let final_score : ℝ := min 100 (score_before_distance * (d_factor : ℝ))
    { category := category, score := final_score, utility_score := utility_score
      utility_sum := utility_sum, coverage_bonus := coverage_bonus
      nearest_distance_m := nearest_distance, poi_count := pois.length
      radius_used := radius, contributions := contributions }

/-- The data determining a critical-cap message
`f"{CATEGORY_NAMES_PL.get(category, category)}: {cat_score:.0f} < {threshold} -> cap {cap}"`
(the message string is determined by these four values). -/
structure CapMsg where
  category_name : String
  cat_score_fmt : ℤ
  threshold : ℚ
  cap : ℚ
deriving DecidableEq, Repr

/-- Builds the cap message recorded by `_apply_critical_caps`. -/
def mkCapMsg (category : String) (cat_score : ℚ) (cc : CriticalCap) : CapMsg :=
  { category_name := (CATEGORY_NAMES_PL.lookup category).getD category
    cat_score_fmt := pyRound cat_score
    threshold := cc.threshold
    cap := cc.cap }

/-- `ProfileScoringEngine._apply_critical_caps`: walk the profile's cap
rules in order; whenever `category_score < threshold` and
`total_score > cap`, clamp the total to `cap` and record the message
(skipping messages already recorded). -/
def apply_critical_caps (category_scores : String → ℚ) :
    List (String × CriticalCap) → ℚ → List CapMsg → ℚ × List CapMsg
  | [], total_score, applied => (total_score, applied)
  | (category, cap_config) :: rest, total_score, applied =>
    let cat_score := category_scores category
    if cat_score < cap_config.threshold ∧ cap_config.cap < total_score then
      let msg := mkCapMsg category cat_score cap_config
      apply_critical_caps category_scores rest cap_config.cap
        (if msg ∈ applied then applied else applied ++ [msg])
    else
      apply_critical_caps category_scores rest total_score applied

/-- Step 2 of `calculate`: the category-score map seen by the cap and
aggregation logic, with `category_scores[noise] = quiet_score`
(line 290 of `profile_engine.py`).  Scores of the remaining categories
are a parameter: the claims quantify over every map the per-category
stage could produce (a category absent from the computed dict is read
back via `.get(category, 0)`, i.e. as the map sending it to 0). -/
def fullCategoryScores (category_scores : String → ℚ) (quiet_score : ℚ) : String → ℚ :=
  fun c => if c = "noise" then quiet_score else category_scores c

/-- The weighted-sum loop of `calculate` (lines 293-306): returns
`(base_score, noise_penalty)`; the noise weight contributes
`|weight| * (100 - quiet_score)` as a penalty instead of a weighted
score. -/
def base_and_noise (profile : ProfileConfig) (scores : String → ℚ) (quiet_score : ℚ) : ℚ × ℚ :=
  profile.weights.foldl
    (fun acc cw =>
      if cw.1 = "noise" then (acc.1, |cw.2| * (100 - quiet_score))
      else (acc.1 + cw.2 * scores cw.1, acc.2))
    (0, 0)

/-- `sum(w for w in self.profile.weights.values() if w > 0)`. -/
def total_positive_weight (profile : ProfileConfig) : ℚ :=
  ((profile.weights.filter (fun cw => 0 < cw.2)).map (·.2)).sum

/-- The aggregate fields of `ScoringResult` produced by
`ProfileScoringEngine.calculate`. -/
structure ScoringResultM where
  total_score : ℚ
  base_score : ℚ
  noise_penalty : ℚ
  roads_penalty : ℚ
  quiet_score : ℚ
  verdict : String
  critical_caps_applied : List CapMsg
deriving Repr

/-- Steps 2-7 of `ProfileScoringEngine.calculate` (lines 287-410):
normalized weighted base score, noise penalty, roads penalty, critical
caps, clamp to [0, 100], the optional base-neighborhood blend (bounded
delta, clamp, caps reapplied), and the stored verdict
`self.profile.thresholds.get_verdict(total_score)`.  The per-category
scores and the roads penalty are parameters (the claims quantify over
every value those earlier stages could produce). -/
def calculate (profile : ProfileConfig) (category_scores : String → ℚ)
    (quiet_score roads_penalty : ℚ) (base_neighborhood_score : Option ℚ) : ScoringResultM :=
  let scores := fullCategoryScores category_scores quiet_score
  let bn := base_and_noise profile scores quiet_score
  let base_score_raw := bn.1
  let noise_penalty := bn.2
  let tpw := total_positive_weight profile
  let base_score := if 0 < tpw then base_score_raw / tpw else base_score_raw
  let total0 := base_score - noise_penalty - roads_penalty
  let tc1 := apply_critical_caps scores profile.critical_caps total0 []
  let total1 := max 0 (min 100 tc1.1)
  let tc2 :=
    match base_neighborhood_score with
    | none => (total1, tc1.2)
    | some base =>
      let delta := max (-MAX_BASE_ADJUSTMENT) (min MAX_BASE_ADJUSTMENT (total1 - base))
      let blended := max 0 (min 100 (base + delta))
      apply_critical_caps scores profile.critical_caps blended tc1.2
  { total_score := tc2.1
    base_score := base_score
    noise_penalty := noise_penalty
    roads_penalty := roads_penalty
    quiet_score := quiet_score
    verdict := profile.thresholds.get_verdict tc2.1
    critical_caps_applied := tc2.2 }

end Engine

/-! ## `scoring/profile_verdict.py` -/

namespace Verdict

/-- `VerdictLevel` (from `scoring/verdict.py`). -/
inductive VerdictLevel
  | recommended
  | conditional
  | not_recommended
deriving DecidableEq, Repr

/-- `ProfileVerdictGenerator._level_from_score`. -/
def level_from_score (score : ℚ) (thresholds : VerdictThresholds) : VerdictLevel :=
  if (thresholds.recommended : ℚ) ≤ score then .recommended
  else if (thresholds.conditional : ℚ) ≤ score then .conditional
  else .not_recommended

/-- The level computed by `ProfileVerdictGenerator.generate`: the
threshold level, downgraded from `recommended` to `conditional` when the
scoring result carries a non-empty `critical_caps_applied` list. -/
def generateLevel (score : ℚ) (critical_caps : List Engine.CapMsg)
    (thresholds : VerdictThresholds) : VerdictLevel :=
  let level := level_from_score score thresholds
  if critical_caps ≠ [] ∧ level = .recommended then .conditional else level

/-- `ProfileVerdictGenerator._calculate_confidence`: a banded base
confidence from the distance to the nearest verdict threshold, reduced by
`min(15 * len(caps), 30)` and floored at 35 when critical caps fired. -/
def calculate_confidence (score : ℚ) (thresholds : VerdictThresholds)
    (critical_caps : List Engine.CapMsg) : ℤ :=
  let dist_to_recommended := |score - (thresholds.recommended : ℚ)|
  let dist_to_conditional := |score - (thresholds.conditional : ℚ)|
  let min_distance := min dist_to_recommended dist_to_conditional
  let base_confidence : ℤ :=
    if 20 ≤ min_distance then 90
    else if 15 ≤ min_distance then 80
    else if 10 ≤ min_distance then 70
    else if 5 ≤ min_distance then 55
    else 45
  if critical_caps ≠ [] then
    let penalty := min ((critical_caps.length : ℤ) * 15) 30
    max 35 (base_confidence - penalty)
  else base_confidence

end Verdict

/-! ## `data_quality.py` -/

namespace DataQuality

/-- The fields of `CategoryCoverage` read by `calculate_confidence`
(`status` and `kept_count`; the remaining fields only feed log output and
reason strings). -/
structure CategoryCoverage where
  status : String
  kept_count : ℤ
deriving DecidableEq, Repr

/-- The default `important_categories` of `calculate_confidence`. -/
def IMPORTANT_CATEGORIES : List String :=
  ["shops", "transport", "education", "health", "nature_place"]

/-- The provider-confidence component (overpass status). -/
def provider_confidence (overpass_status : String) : ℤ :=
  if overpass_status = "timeout" then 100 - 15
  else if overpass_status = "error" then 100 - 30
  else 100

/-- The data-confidence component: `-20` for each important category whose
coverage status is `error`. -/
def data_confidence (coverage : String → Option CategoryCoverage)
    (important_categories : List String) : ℤ :=
  important_categories.foldl
    (fun acc cat =>
      match coverage cat with
      | none => acc
      | some cov => if cov.status = "error" then acc - 20 else acc)
    100

/-- The iteration set of the signal loop:
`set(important_categories) | set(profile_weights.keys())` (the loop's
total effect does not depend on the set's iteration order). -/
def all_cats (important_categories : List String) (ws : List (String × ℚ)) : List String :=
  important_categories ++ (ws.map (·.1)).filter (fun c => c ∉ important_categories)

/-- The signal-confidence component: for categories with
`abs(profile_weight) >= 0.10`, `-15` when the status is `empty` and `-5`
when it is `partial` with fewer than 2 kept POIs.  A falsy
`profile_weights` (None or empty dict) skips the loop. -/
def signal_confidence (coverage : String → Option CategoryCoverage)
    (important_categories : List String)
    (profile_weights : Option (List (String × ℚ))) : ℤ :=
  match profile_weights with
  | none => 100
  | some ws =>
    if ws = [] then 100
    else
      (all_cats important_categories ws).foldl
        (fun acc cat =>
          let weight := |(ws.lookup cat).getD 0|
          if weight < 1/10 then acc
          else
            match coverage cat with
            | some cov =>
              if cov.status = "empty" then acc - 15
              else if cov.status = "partial" ∧ cov.kept_count < 2 then acc - 5
              else acc
            | none => acc)
        100

/-- `calculate_confidence` of `data_quality.py` (the returned confidence
percentage; the accompanying reason strings and component dict are not
modelled): clamp each component to [0, 100], combine as
`int(0.4 * provider + 0.3 * data + 0.3 * signal)`, clamp to [0, 100]. -/
def calculate_confidence (coverage : String → Option CategoryCoverage)
    (overpass_status : String) (important_categories : List String)
    (profile_weights : Option (List (String × ℚ))) : ℤ :=
  let p := max 0 (min 100 (provider_confidence overpass_status))
  let d := max 0 (min 100 (data_confidence coverage important_categories))
  let s := max 0 (min 100 (signal_confidence coverage important_categories profile_weights))
  let total := pyInt ((2/5 : ℚ) * (p : ℚ) + (3/10 : ℚ) * (d : ℚ) + (3/10 : ℚ) * (s : ℚ))
  max 0 (min 100 total)

/-- Pointwise status update of a coverage map ("all else held equal"). -/
def setStatus (coverage : String → Option CategoryCoverage) (c : String) (s : String) :
    String → Option CategoryCoverage :=
  fun c2 =>
    if c2 = c then (coverage c2).map (fun cov => { cov with status := s })
    else coverage c2

/-- The per-category deduction of the data-confidence loop. -/
def dataDelta (coverage : String → Option CategoryCoverage) (cat : String) : ℤ :=
  match coverage cat with
  | none => 0
  | some cov => if cov.status = "error" then 20 else 0

/-- The per-category deduction of the signal-confidence loop. -/
def signalDelta (coverage : String → Option CategoryCoverage)
    (ws : List (String × ℚ)) (cat : String) : ℤ :=
  if |(ws.lookup cat).getD 0| < 1/10 then 0
  else
    match coverage cat with
    | some cov =>
      if cov.status = "empty" then 15
      else if cov.status = "partial" ∧ cov.kept_count < 2 then 5
      else 0
    | none => 0

/-- The absolute profile weight a category carries in the signal loop. -/
def profile_weight_abs (ws : Option (List (String × ℚ))) (c : String) : ℚ :=
  match ws with
  | none => 0
  | some w => |(w.lookup c).getD 0|

end DataQuality

/-! ## `geo/hybrid_poi_provider.py` (`_dedupe_pois`) -/

namespace Dedupe

/-- The fields of a `geo` POI read by `_dedupe_pois` (`poi.name`,
`poi.distance_m`, `poi.place_id`, `poi.tags.get('place_id')`).  The
claims restrict to POIs whose `distance_m` is not `None`, so the distance
is modelled as a plain rational. -/
structure HPOI where
  name : String
  distance_m : ℚ
  place_id : Option String
  tags_place_id : Option String
deriving DecidableEq, Repr

/-- `MAX_POIS_PER_CATEGORY` of `geo/overpass_client.py`. -/
def MAX_POIS_PER_CATEGORY : ℕ := 30

/-- `place_id = poi.place_id or poi.tags.get('place_id')`, kept only when
truthy (`if place_id:`). -/
def usedPlaceId (poi : HPOI) : Option String :=
  let place_id := pyOrS poi.place_id poi.tags_place_id
  if truthyS place_id then place_id else none

/-- `fallback_key = (poi.name.lower(), round((poi.distance_m or 0) / 20) * 20)`. -/
def fallback_key (poi : HPOI) : String × ℤ :=
  (pyLower poi.name, pyRound (poi.distance_m / 20) * 20)

/-- The filtering loop of `_dedupe_pois`: walk the items keeping the first
occurrence of each truthy place id, and, for items without one, the first
occurrence of each `(lowercased name, 20 m distance bucket)` key.  Returns
the kept items together with the final `seen_place_ids` and
`seen_fallback` sets (sets modelled as lists with membership). -/
def dedupeAux : List HPOI → List String → List (String × ℤ) →
    List HPOI × List String × List (String × ℤ)
  | [], seenP, seenF => ([], seenP, seenF)
  | poi :: items, seenP, seenF =>
    match usedPlaceId poi with
    | some pid =>
      if pid ∈ seenP then dedupeAux items seenP seenF
      else
        let r := dedupeAux items (pid :: seenP) seenF
        (poi :: r.1, r.2.1, r.2.2)
    | none =>
      let k := fallback_key poi
      if k ∈ seenF then dedupeAux items seenP seenF
      else
        let r := dedupeAux items seenP (k :: seenF)
        (poi :: r.1, r.2.1, r.2.2)

/-- Comparison for the final `unique_items.sort(key=lambda p: p.distance_m)`
(Python's sort is stable; `List.insertionSort` is stable). -/
def hLE (p q : HPOI) : Prop := p.distance_m ≤ q.distance_m

instance : DecidableRel hLE := fun p q =>
  inferInstanceAs (Decidable (p.distance_m ≤ q.distance_m))

instance : IsTotal HPOI hLE := ⟨fun p q => le_total p.distance_m q.distance_m⟩

instance : IsTrans HPOI hLE := ⟨fun _ _ _ h h2 => le_trans h h2⟩

/-- `HybridPOIProvider._dedupe_pois` for one category's list: filter
duplicates, sort by distance, truncate to `MAX_POIS_PER_CATEGORY`. -/
def dedupe_category (items : List HPOI) : List HPOI :=
  (List.insertionSort hLE (dedupeAux items [] []).1).take MAX_POIS_PER_CATEGORY

/-- `_dedupe_pois` over the whole per-category map. -/
def dedupe_pois (pois : List (String × List HPOI)) : List (String × List HPOI) :=
  pois.map (fun cl => (cl.1, dedupe_category cl.2))

/-- The key-distinctness relation that two surviving POIs of the same
category satisfy: distinct truthy place ids when both carry one, distinct
fallback keys when neither does (a POI with a truthy place id is never
checked against the fallback keys). -/
def distinctKeys (p q : HPOI) : Prop :=
  match usedPlaceId p, usedPlaceId q with
  | some a, some b => a ≠ b
  | none, none => fallback_key p ≠ fallback_key q
  | _, _ => True

/-- Whether a POI's dedup key is already in the given seen sets. -/
def keyIn (poi : HPOI) (seenP : List String) (seenF : List (String × ℤ)) : Prop :=
  match usedPlaceId poi with
  | some pid => pid ∈ seenP
  | none => fallback_key poi ∈ seenF

end Dedupe

/-! ## Concrete inputs used by witnesses and counterexamples -/

/-- A category-score map: `education` scores 20, every other category 100. -/
def exampleScores : String → ℚ := fun c => if c = "education" then 20 else 100

/-- A POI with a 5.0 rating and no review count at all. -/
def ratedNoReviewsPoi : Engine.POI :=
  { name := "Sklep A", distance_m := 100, subcategory := "", rating := some 5
    user_ratings_total := none, reviews_count := none, low_reviews := false
    nameless := false }

/-- A POI with a 4.0 rating and no review count. -/
def ratedNoReviewsPoi4 : Engine.POI :=
  { name := "Sklep B", distance_m := 150, subcategory := "", rating := some 4
    user_ratings_total := none, reviews_count := none, low_reviews := false
    nameless := false }

/-- The scenario POI of end-to-end scenario 1: one named shop 100 m away
with no rating metadata. -/
def scenarioShopPoi : Engine.POI :=
  { name := "Sklep osiedlowy", distance_m := 100, subcategory := "supermarket"
    rating := none, user_ratings_total := none, reviews_count := none
    low_reviews := false, nameless := false }

/-- A coverage map holding only the `food` category with an `ok` status. -/
def covFoodOk : String → Option DataQuality.CategoryCoverage :=
  fun c => if c = "food" then some { status := "ok", kept_count := 3 } else none

/-- A coverage map holding only the `shops` category with an `ok` status. -/
def covShopsOk : String → Option DataQuality.CategoryCoverage :=
  fun c => if c = "shops" then some { status := "ok", kept_count := 3 } else none

/-- A geo POI that carries a commercial place id. -/
def dupWithId : Dedupe.HPOI :=
  { name := "Biedronka", distance_m := 100, place_id := some "pid-1"
    tags_place_id := none }

/-- A geo POI with the same name and distance bucket but no place id. -/
def dupWithoutId : Dedupe.HPOI :=
  { name := "Biedronka", distance_m := 100, place_id := none
    tags_place_id := none }

/-! ## Helper lemmas -/

/-- `distance_score` only returns the tier values, all nonnegative. -/
theorem distance_score_nonneg (d r : ℚ) (mode : DecayMode) :
    0 ≤ distance_score d r mode := by
  unfold distance_score
  rcases mode <;> dsimp only <;> split_ifs <;> norm_num

/-- The cap-application loop never increases the total. -/
theorem apply_critical_caps_fst_le (cs : String → ℚ) :
    ∀ (caps : List (String × CriticalCap)) (t : ℚ) (a : List Engine.CapMsg),
      (Engine.apply_critical_caps cs caps t a).1 ≤ t := by
  intro caps
  induction caps with
  | nil => intro t a; simp [Engine.apply_critical_caps]
  | cons hd tl ih =>
    intro t a
    obtain ⟨cat, cc⟩ := hd
    simp only [Engine.apply_critical_caps]
    split_ifs with h h2
    · exact (ih cc.cap _).trans (le_of_lt h.2)
    · exact (ih cc.cap _).trans (le_of_lt h.2)
    · exact ih t a

/-- After the cap-application loop, the total respects every rule whose
category score is below its threshold. -/
theorem apply_critical_caps_le_cap (cs : String → ℚ) {cat : String} {cc : CriticalCap} :
    ∀ (caps : List (String × CriticalCap)), (cat, cc) ∈ caps →
      cs cat < cc.threshold →
      ∀ (t : ℚ) (a : List Engine.CapMsg),
        (Engine.apply_critical_caps cs caps t a).1 ≤ cc.cap := by
  intro caps
  induction caps with
  | nil => intro hmem; exact absurd hmem (List.not_mem_nil _)
  | cons hd tl ih =>
    intro hmem hlow t a
    obtain ⟨cat2, cc2⟩ := hd
    rcases List.mem_cons.mp hmem with heq | htl
    · injection heq with h1 h2
      subst h1
      subst h2
      simp only [Engine.apply_critical_caps]
      split_ifs with h h2
      · exact apply_critical_caps_fst_le cs tl cc.cap _
      · exact apply_critical_caps_fst_le cs tl cc.cap _
      · have hnot : ¬ cc.cap < t := fun hlt => h ⟨hlow, hlt⟩
        exact le_trans (apply_critical_caps_fst_le cs tl t a) (not_lt.mp hnot)
    · simp only [Engine.apply_critical_caps]
      split_ifs with h h2
      · exact ih htl hlow _ _
      · exact ih htl hlow _ _
      · exact ih htl hlow _ _

/-- Fold congruence over the members of a list. -/
theorem foldl_congr_mem {α β : Type} (l : List α) (f g : β → α → β) (b : β)
    (h : ∀ b' a, a ∈ l → f b' a = g b' a) : l.foldl f b = l.foldl g b := by
  induction l generalizing b with
  | nil => rfl
  | cons x xs ih =>
    rw [List.foldl_cons, List.foldl_cons, h b x (List.mem_cons_self x xs)]
    exact ih _ (fun b' a ha => h b' a (List.mem_cons_of_mem x ha))

/-- A fold that subtracts a per-element amount equals the start minus the
summed amounts. -/
theorem foldl_sub_eq {α : Type} (step : ℤ → α → ℤ) (d : α → ℤ)
    (h : ∀ a x, step a x = a - d x) (l : List α) :
    ∀ a : ℤ, l.foldl step a = a - (l.map d).sum := by
  induction l with
  | nil => intro a; simp
  | cons x xs ih =>
    intro a
    rw [List.foldl_cons, h, ih]
    simp only [List.map_cons, List.sum_cons]
    ring

/-- Sum of a pointwise sum of maps. -/
theorem sum_map_add {α : Type} (l : List α) (f g : α → ℤ) :
    (l.map fun a => f a + g a).sum = (l.map f).sum + (l.map g).sum := by
  induction l with
  | nil => simp
  | cons x xs ih => simp only [List.map_cons, List.sum_cons, ih]; ring

/-- Sum of a pointwise-nonnegative map is nonnegative. -/
theorem sum_map_nonneg {α : Type} (l : List α) (f : α → ℤ) (h : ∀ a ∈ l, 0 ≤ f a) :
    0 ≤ (l.map f).sum := by
  induction l with
  | nil => simp
  | cons x xs ih =>
    simp only [List.map_cons, List.sum_cons]
    have h1 := h x (List.mem_cons_self x xs)
    have h2 := ih (fun a ha => h a (List.mem_cons_of_mem x ha))
    linarith

/-- Pointwise-bounded maps have bounded sums. -/
theorem sum_map_le {α : Type} (l : List α) (f g : α → ℤ) (h : ∀ a ∈ l, f a ≤ g a) :
    (l.map f).sum ≤ (l.map g).sum := by
  induction l with
  | nil => simp
  | cons x xs ih =>
    simp only [List.map_cons, List.sum_cons]
    have h1 := h x (List.mem_cons_self x xs)
    have h2 := ih (fun a ha => h a (List.mem_cons_of_mem x ha))
    linarith

/-- Summing an indicator map counts occurrences. -/
theorem sum_map_ite_count {α : Type} [DecidableEq α] (l : List α) (c : α) (v : ℤ) :
    (l.map fun a => if a = c then v else 0).sum = v * (l.count c : ℤ) := by
  induction l with
  | nil => simp
  | cons x xs ih =>
    simp only [List.map_cons, List.sum_cons, ih, List.count_cons]
    by_cases h : x = c
    · subst h
      have hb : (x == x) = true := beq_self_eq_true x
      rw [if_pos rfl, if_pos hb]
      push_cast
      ring
    · have hb : (x == c) = false := beq_eq_false_iff_ne.mpr h
      rw [if_neg h, if_neg (by rw [hb]; exact Bool.false_ne_true)]
      push_cast
      ring

/-- Clamping to [0, 100] lands in [0, 100]. -/
theorem clamp_bounds (x : ℤ) : 0 ≤ max 0 (min 100 x) ∧ max 0 (min 100 x) ≤ 100 :=
  ⟨le_max_left _ _, max_le (by norm_num) (min_le_left _ _)⟩

/-- The data-confidence fold as a sum of per-category deductions. -/
theorem data_confidence_eq (coverage : String → Option DataQuality.CategoryCoverage)
    (l : List String) :
    DataQuality.data_confidence coverage l =
      100 - (l.map (DataQuality.dataDelta coverage)).sum := by
  unfold DataQuality.data_confidence
  refine foldl_sub_eq _ _ (fun a x => ?_) l 100
  unfold DataQuality.dataDelta
  cases h : coverage x with
  | none => simp
  | some cov =>
    dsimp only
    split_ifs with hs
    · rfl
    · simp

/-- The signal-confidence fold as a sum of per-category deductions. -/
theorem signal_confidence_some_eq (coverage : String → Option DataQuality.CategoryCoverage)
    (l : List String) (ws : List (String × ℚ)) (h : ws ≠ []) :
    DataQuality.signal_confidence coverage l (some ws) =
      100 - ((DataQuality.all_cats l ws).map (DataQuality.signalDelta coverage ws)).sum := by
  unfold DataQuality.signal_confidence
  dsimp only
  rw [if_neg h]
  refine foldl_sub_eq _ _ (fun a x => ?_) _ 100
  unfold DataQuality.signalDelta
  split_ifs with h1
  · simp
  · cases hcv : coverage x with
    | none => simp
    | some cov =>
      dsimp only
      split_ifs with h2 h3
      · rfl
      · rfl
      · simp

/-- Each data deduction is 0 or 20. -/
theorem dataDelta_bounds (coverage : String → Option DataQuality.CategoryCoverage)
    (cat : String) :
    0 ≤ DataQuality.dataDelta coverage cat ∧ DataQuality.dataDelta coverage cat ≤ 20 := by
  unfold DataQuality.dataDelta
  cases coverage cat with
  | none => norm_num
  | some cov =>
    dsimp only
    split_ifs <;> norm_num

theorem calculate_confidence_empty_eq (coverage : String → Option DataQuality.CategoryCoverage)
    (os : String) (ws : Option (List (String × ℚ))) (c : String)
    (cov : DataQuality.CategoryCoverage) (hc : coverage c = some cov)
    (hw : DataQuality.profile_weight_abs ws c < 1/10)
    (hnoterr : c ∈ DataQuality.IMPORTANT_CATEGORIES → cov.status ≠ "error") :
    DataQuality.calculate_confidence (DataQuality.setStatus coverage c "empty") os
        DataQuality.IMPORTANT_CATEGORIES ws =
      DataQuality.calculate_confidence coverage os DataQuality.IMPORTANT_CATEGORIES ws := by
  have hdata : DataQuality.data_confidence (DataQuality.setStatus coverage c "empty")
      DataQuality.IMPORTANT_CATEGORIES =
      DataQuality.data_confidence coverage DataQuality.IMPORTANT_CATEGORIES := by
    unfold DataQuality.data_confidence
    refine foldl_congr_mem _ _ _ _ (fun b' cat hcat => ?_)
    unfold DataQuality.setStatus
    by_cases hceq : cat = c
    · subst hceq
      rw [if_pos rfl, hc]
      dsimp only [Option.map_some']
      rw [if_neg (by decide : ¬ ("empty" : String) = "error"),
        if_neg (hnoterr hcat)]
    · rw [if_neg hceq]
  have hsig : DataQuality.signal_confidence (DataQuality.setStatus coverage c "empty")
      DataQuality.IMPORTANT_CATEGORIES ws =
      DataQuality.signal_confidence coverage DataQuality.IMPORTANT_CATEGORIES ws := by
    cases ws with
    | none => rfl
    | some w =>
      unfold DataQuality.signal_confidence
      dsimp only
      by_cases hwnil : w = []
      · rw [if_pos hwnil, if_pos hwnil]
      · rw [if_neg hwnil, if_neg hwnil]
        refine foldl_congr_mem _ _ _ _ (fun b' cat hcat => ?_)
        by_cases hceq : cat = c
        · subst hceq
          have hwlt : |(List.lookup cat w).getD 0| < 1/10 := hw
          rw [if_pos hwlt, if_pos hwlt]
        · unfold DataQuality.setStatus
          rw [if_neg hceq]
  unfold DataQuality.calculate_confidence
  rw [hdata, hsig]

/-- Strict decrease of the combined clamped confidence when the data
component drops by exactly 20 while every component stays in range. -/
theorem confidence_total_strict_lt (p d s : ℤ) (hp0 : 0 ≤ p) (hp1 : p ≤ 100)
    (hs0 : 0 ≤ s) (hs1 : s ≤ 100) (hd0 : 20 ≤ d) (hd1 : d ≤ 100) :
    max 0 (min 100 (pyInt ((2/5 : ℚ) * (p : ℚ) + (3/10 : ℚ) * ((d - 20 : ℤ) : ℚ)
        + (3/10 : ℚ) * (s : ℚ)))) <
    max 0 (min 100 (pyInt ((2/5 : ℚ) * (p : ℚ) + (3/10 : ℚ) * (d : ℚ)
        + (3/10 : ℚ) * (s : ℚ)))) := by
  have hpq : (0:ℚ) ≤ (p:ℚ) ∧ (p:ℚ) ≤ 100 := ⟨by exact_mod_cast hp0, by exact_mod_cast hp1⟩
  have hsq : (0:ℚ) ≤ (s:ℚ) ∧ (s:ℚ) ≤ 100 := ⟨by exact_mod_cast hs0, by exact_mod_cast hs1⟩
  have hdq : (20:ℚ) ≤ (d:ℚ) ∧ (d:ℚ) ≤ 100 := ⟨by exact_mod_cast hd0, by exact_mod_cast hd1⟩
  set Xok : ℚ := (2/5 : ℚ) * (p : ℚ) + (3/10 : ℚ) * (d : ℚ) + (3/10 : ℚ) * (s : ℚ) with hxok
  have hXe : (2/5 : ℚ) * (p : ℚ) + (3/10 : ℚ) * ((d - 20 : ℤ) : ℚ) + (3/10 : ℚ) * (s : ℚ)
      = Xok - ((6:ℤ):ℚ) := by
    rw [hxok]
    push_cast
    ring
  rw [hXe]
  have hX6 : ((6:ℤ):ℚ) ≤ Xok := by
    rw [hxok]
    push_cast
    nlinarith [hpq.1, hsq.1, hdq.1]
  have hX100 : Xok ≤ 100 := by
    rw [hxok]
    nlinarith [hpq.2, hsq.2, hdq.2]
  have hX0 : (0:ℚ) ≤ Xok := le_trans (by norm_num) hX6
  have hpyint_err : pyInt (Xok - ((6:ℤ):ℚ)) = pyInt Xok - 6 := by
    unfold pyInt
    rw [if_neg (not_lt.mpr (by push_cast; push_cast at hX6; linarith)),
      if_neg (not_lt.mpr hX0), Int.floor_sub_int]
  rw [hpyint_err]
  have hfl_ub : pyInt Xok ≤ 100 := by
    unfold pyInt
    rw [if_neg (not_lt.mpr hX0)]
    calc Int.floor Xok ≤ Int.floor ((100:ℤ):ℚ) :=
          Int.floor_le_floor (by push_cast; exact hX100)
      _ = 100 := Int.floor_intCast 100
  have hfl_lb : 6 ≤ pyInt Xok := by
    unfold pyInt
    rw [if_neg (not_lt.mpr hX0)]
    rw [Int.le_floor]
    exact hX6
  rw [min_eq_right (by linarith : pyInt Xok - 6 ≤ 100), max_eq_right (by linarith),
    min_eq_right hfl_ub, max_eq_right (by linarith)]
  linarith

theorem calculate_confidence_error_lt (coverage : String → Option DataQuality.CategoryCoverage)
    (os : String) (ws : Option (List (String × ℚ))) (c : String)
    (cov : DataQuality.CategoryCoverage) (hc : coverage c = some cov)
    (hmem : c ∈ DataQuality.IMPORTANT_CATEGORIES) (hok : cov.status = "ok") :
    DataQuality.calculate_confidence (DataQuality.setStatus coverage c "error") os
        DataQuality.IMPORTANT_CATEGORIES ws <
      DataQuality.calculate_confidence coverage os DataQuality.IMPORTANT_CATEGORIES ws := by
  -- the signal component does not see the change: ok and error both contribute 0
  have hsig : DataQuality.signal_confidence (DataQuality.setStatus coverage c "error")
      DataQuality.IMPORTANT_CATEGORIES ws =
      DataQuality.signal_confidence coverage DataQuality.IMPORTANT_CATEGORIES ws := by
    cases ws with
    | none => rfl
    | some w =>
      unfold DataQuality.signal_confidence
      dsimp only
      by_cases hwnil : w = []
      · rw [if_pos hwnil, if_pos hwnil]
      · rw [if_neg hwnil, if_neg hwnil]
        refine foldl_congr_mem _ _ _ _ (fun b' cat hcat => ?_)
        by_cases hceq : cat = c
        · subst hceq
          by_cases hwlt : |(List.lookup cat w).getD 0| < 1/10
          · rw [if_pos hwlt, if_pos hwlt]
          · rw [if_neg hwlt, if_neg hwlt]
            unfold DataQuality.setStatus
            rw [if_pos rfl, hc]
            dsimp only [Option.map_some']
            rw [if_neg (by decide : ¬ ("error" : String) = "empty"),
              if_neg (by push_neg; intro h; exact absurd h (by decide) :
                ¬ (("error" : String) = "partial" ∧ cov.kept_count < 2)),
              hok]
            rw [if_neg (by decide : ¬ ("ok" : String) = "empty"),
              if_neg (by push_neg; intro h; exact absurd h (by decide) :
                ¬ (("ok" : String) = "partial" ∧ cov.kept_count < 2))]
        · unfold DataQuality.setStatus
          rw [if_neg hceq]
  -- the data component drops by exactly 20
  have hpt : ∀ cat, DataQuality.dataDelta (DataQuality.setStatus coverage c "error") cat =
      DataQuality.dataDelta coverage cat + (if cat = c then 20 else 0) := by
    intro cat
    unfold DataQuality.dataDelta DataQuality.setStatus
    by_cases hceq : cat = c
    · subst hceq
      rw [if_pos rfl, if_pos rfl, hc]
      dsimp only [Option.map_some']
      rw [if_pos rfl, hok, if_neg (by decide : ¬ ("ok" : String) = "error")]
      norm_num
    · rw [if_neg hceq, if_neg hceq]
      ring
  have hcount : (DataQuality.IMPORTANT_CATEGORIES.count c) = 1 := by
    fin_cases hmem <;> decide
  have hsum_rel :
      (DataQuality.IMPORTANT_CATEGORIES.map
        (DataQuality.dataDelta (DataQuality.setStatus coverage c "error"))).sum =
      (DataQuality.IMPORTANT_CATEGORIES.map (DataQuality.dataDelta coverage)).sum + 20 := by
    have hmapeq : DataQuality.IMPORTANT_CATEGORIES.map
        (DataQuality.dataDelta (DataQuality.setStatus coverage c "error")) =
        DataQuality.IMPORTANT_CATEGORIES.map
          (fun cat => DataQuality.dataDelta coverage cat + (if cat = c then 20 else 0)) :=
      List.map_congr_left (fun a _ => hpt a)
    rw [hmapeq, sum_map_add, sum_map_ite_count, hcount]
    norm_num
  have hdata : DataQuality.data_confidence (DataQuality.setStatus coverage c "error")
      DataQuality.IMPORTANT_CATEGORIES =
      DataQuality.data_confidence coverage DataQuality.IMPORTANT_CATEGORIES - 20 := by
    rw [data_confidence_eq, data_confidence_eq, hsum_rel]
    ring
  -- bounds on the data sums
  have hdelta_c : DataQuality.dataDelta coverage c = 0 := by
    unfold DataQuality.dataDelta
    rw [hc]
    dsimp only
    rw [hok, if_neg (by decide : ¬ ("ok" : String) = "error")]
  have hsum_lb : 0 ≤ (DataQuality.IMPORTANT_CATEGORIES.map (DataQuality.dataDelta coverage)).sum :=
    sum_map_nonneg _ _ (fun a _ => (dataDelta_bounds coverage a).1)
  have hsum_ub : (DataQuality.IMPORTANT_CATEGORIES.map (DataQuality.dataDelta coverage)).sum ≤ 80 := by
    have hle : ∀ cat ∈ DataQuality.IMPORTANT_CATEGORIES,
        DataQuality.dataDelta coverage cat ≤ 20 + (if cat = c then (-20 : ℤ) else 0) := by
      intro cat _
      by_cases hceq : cat = c
      · subst hceq
        rw [hdelta_c, if_pos rfl]
        norm_num
      · rw [if_neg hceq]
        have := (dataDelta_bounds coverage cat).2
        linarith
    have hmain := sum_map_le _ _ _ hle
    rw [sum_map_add, sum_map_ite_count, hcount] at hmain
    have hconst : (DataQuality.IMPORTANT_CATEGORIES.map (fun _ => (20:ℤ))).sum = 100 := by decide
    rw [hconst] at hmain
    push_cast at hmain
    linarith
  have hdb1 : 20 ≤ DataQuality.data_confidence coverage DataQuality.IMPORTANT_CATEGORIES := by
    rw [data_confidence_eq]
    linarith
  have hdb2 : DataQuality.data_confidence coverage DataQuality.IMPORTANT_CATEGORIES ≤ 100 := by
    rw [data_confidence_eq]
    linarith
  -- assemble
  unfold DataQuality.calculate_confidence
  rw [hdata, hsig]
  have hclamp_ok : max 0 (min 100
      (DataQuality.data_confidence coverage DataQuality.IMPORTANT_CATEGORIES)) =
      DataQuality.data_confidence coverage DataQuality.IMPORTANT_CATEGORIES := by
    rw [min_eq_right hdb2, max_eq_right (by linarith)]
  have hclamp_err : max 0 (min 100
      (DataQuality.data_confidence coverage DataQuality.IMPORTANT_CATEGORIES - 20)) =
      DataQuality.data_confidence coverage DataQuality.IMPORTANT_CATEGORIES - 20 := by
    rw [min_eq_right (by linarith), max_eq_right (by linarith)]
  rw [hclamp_ok, hclamp_err]
  exact confidence_total_strict_lt _ _ _
    (clamp_bounds _).1 (clamp_bounds _).2 (clamp_bounds _).1 (clamp_bounds _).2 hdb1 hdb2

/-! ## Claim theorems -/

/-- C1: for every profile (with caps on the 0-100 score scale) and every
input to `calculate` (with or without a base neighborhood score), the
returned result satisfies every critical-cap rule of the profile: whenever
a rule's category score (the quiet score for `noise`) is below its
threshold, the final `total_score` is at most its cap — also after the
base-score blending step, which reapplies all caps. -/
theorem C1_critical_cap_invariant (profile : ProfileConfig)
    (category_scores : String → ℚ) (quiet_score roads_penalty : ℚ)
    (base_neighborhood_score : Option ℚ)
    (hcaps : ∀ p ∈ profile.critical_caps, (0:ℚ) ≤ p.2.cap)
    (cat : String) (cc : CriticalCap)
    (hmem : (cat, cc) ∈ profile.critical_caps)
    (hlow : Engine.fullCategoryScores category_scores quiet_score cat < cc.threshold) :
    (Engine.calculate profile category_scores quiet_score roads_penalty
        base_neighborhood_score).total_score ≤ cc.cap := by
  have hcap0 : (0:ℚ) ≤ cc.cap := hcaps (cat, cc) hmem
  cases base_neighborhood_score with
  | none =>
    simp only [Engine.calculate]
    exact max_le hcap0
      (le_trans (min_le_right _ _) (apply_critical_caps_le_cap _ _ hmem hlow _ _))
  | some base =>
    simp only [Engine.calculate]
    exact apply_critical_caps_le_cap _ _ hmem hlow _ _

/-- C1 witness: the family profile with education scoring 20 (below the
35 threshold) and a base neighborhood score supplied ends at or below the
education cap of 70. -/
theorem C1_witness :
    (Engine.calculate PROFILE_FAMILY exampleScores 100 0 (some 50)).total_score ≤ 70 :=
  C1_critical_cap_invariant PROFILE_FAMILY exampleScores 100 0 (some 50)
    (by intro p hp
        simp only [PROFILE_FAMILY, List.mem_cons, List.not_mem_nil, or_false] at hp
        rcases hp with h | h <;> subst h <;> norm_num)
    "education" { threshold := 35, cap := 70 }
    (List.Mem.head _)
    (by simp +decide [Engine.fullCategoryScores, exampleScores])

/-- C5: for every distance `d >= 0`, radius `r > 0` and decay mode,
`distance_score d r mode` is 0 whenever `d >= r`, and the function is
non-increasing in `d` for fixed `r` and mode. -/
theorem C5_distance_score_shape (d r : ℚ) (mode : DecayMode)
    (hd : 0 ≤ d) (hr : 0 < r) :
    (r ≤ d → distance_score d r mode = 0) ∧
    ∀ d2, d ≤ d2 → distance_score d2 r mode ≤ distance_score d r mode := by
  constructor
  · intro h
    unfold distance_score
    rw [if_pos h]
  · intro d2 h12
    by_cases h2 : r ≤ d2
    · calc distance_score d2 r mode = 0 := by unfold distance_score; rw [if_pos h2]
        _ ≤ distance_score d r mode := distance_score_nonneg d r mode
    · have hd2 : d2 < r := not_le.mp h2
      have hd1 : d < r := lt_of_le_of_lt h12 hd2
      have hratio : d / r ≤ d2 / r := by gcongr
      unfold distance_score
      rw [if_neg (not_le.mpr hd2), if_neg (not_le.mpr hd1)]
      rcases mode <;> dsimp only <;> split_ifs <;> linarith

/-- C5 witness: with the daily curve and a 600 m radius, the score is 0
at 700 m, and the score at 300 m is at most the score at 100 m. -/
theorem C5_witness :
    distance_score 700 600 DecayMode.daily = 0 ∧
    distance_score 300 600 DecayMode.daily ≤ distance_score 100 600 DecayMode.daily :=
  ⟨(C5_distance_score_shape 700 600 DecayMode.daily (by norm_num) (by norm_num)).1
      (by norm_num),
   (C5_distance_score_shape 100 600 DecayMode.daily (by norm_num) (by norm_num)).2 300
      (by norm_num)⟩

/-- C8: `get_profile` is total: a key whose lowercasing is in the registry
returns that registry entry, and every other key returns the default
profile (family) instead of an error. -/
theorem C8_get_profile (key : String) :
    (∀ cfg, PROFILE_REGISTRY.lookup (pyLower key) = some cfg → get_profile key = cfg) ∧
    (PROFILE_REGISTRY.lookup (pyLower key) = none → get_profile key = PROFILE_FAMILY) := by
  constructor
  · intro cfg h
    unfold get_profile
    rw [h]
  · intro h
    unfold get_profile
    rw [h]

/-- C8 witness: an uppercase known key resolves to its profile and an
unknown key falls back to the family profile. -/
theorem C8_witness :
    get_profile "URBAN" = PROFILE_URBAN ∧ get_profile "starship" = PROFILE_FAMILY :=
  ⟨(C8_get_profile "URBAN").1 PROFILE_URBAN rfl,
   (C8_get_profile "starship").2 rfl⟩

/-- C10: for every score, every pair of verdict thresholds and every list
of applied critical caps, the verdict confidence lies in [35, 90]: the
band lookup yields one of 45/55/70/80/90 (shown for the no-caps call),
the cap penalty is at most 30, and the capped value is floored at 35. -/
theorem C10_confidence_range (score : ℚ) (thresholds : VerdictThresholds)
    (caps : List Engine.CapMsg) :
    35 ≤ Verdict.calculate_confidence score thresholds caps ∧
    Verdict.calculate_confidence score thresholds caps ≤ 90 ∧
    Verdict.calculate_confidence score thresholds [] ∈ ([45, 55, 70, 80, 90] : List ℤ) := by
  have hmain : ∀ cs : List Engine.CapMsg,
      35 ≤ Verdict.calculate_confidence score thresholds cs ∧
      Verdict.calculate_confidence score thresholds cs ≤ 90 := by
    intro cs
    simp only [Verdict.calculate_confidence]
    rcases eq_or_ne cs [] with h | h
    · subst h
      simp only [ne_eq, not_true_eq_false, if_false]
      split_ifs <;> norm_num
    · have hlen : (1:ℤ) ≤ (cs.length : ℤ) := by
        have := List.length_pos.mpr h
        exact_mod_cast this
      simp only [ne_eq, h, not_false_eq_true, if_true]
      split_ifs <;> constructor <;> omega
  refine ⟨(hmain caps).1, (hmain caps).2, ?_⟩
  simp only [Verdict.calculate_confidence]
  simp only [ne_eq, not_true_eq_false, if_false]
  split_ifs <;> simp

/-- C4: with critical caps applied the generated verdict level is never
`recommended` (a score at or above the recommended threshold is
downgraded to `conditional`); with no caps the level is `recommended` iff
`score >= recommended`, `conditional` iff
`conditional <= score < recommended`, and `not_recommended` otherwise. -/
theorem C4_verdict_levels (score : ℚ) (thresholds : VerdictThresholds)
    (caps : List Engine.CapMsg) :
    (caps ≠ [] →
      Verdict.generateLevel score caps thresholds ≠ Verdict.VerdictLevel.recommended ∧
      ((thresholds.recommended : ℚ) ≤ score →
        Verdict.generateLevel score caps thresholds = Verdict.VerdictLevel.conditional)) ∧
    (caps = [] →
      (Verdict.generateLevel score caps thresholds = Verdict.VerdictLevel.recommended ↔
        (thresholds.recommended : ℚ) ≤ score) ∧
      (Verdict.generateLevel score caps thresholds = Verdict.VerdictLevel.conditional ↔
        ((thresholds.conditional : ℚ) ≤ score ∧ score < (thresholds.recommended : ℚ))) ∧
      (Verdict.generateLevel score caps thresholds = Verdict.VerdictLevel.not_recommended ↔
        (¬ (thresholds.recommended : ℚ) ≤ score ∧
         ¬ ((thresholds.conditional : ℚ) ≤ score ∧ score < (thresholds.recommended : ℚ))))) := by
  unfold Verdict.generateLevel Verdict.level_from_score
  constructor
  · intro hne
    constructor
    · split_ifs with h1 h2 h3 <;> simp_all
    · intro hrec
      split_ifs with h1 <;> simp_all
  · intro hnil
    subst hnil
    refine ⟨?_, ?_, ?_⟩ <;> split_ifs with h1 h2 <;> simp_all <;> constructor <;>
      intro h <;> first | linarith | simp_all

/-- C4 witness: with the family thresholds (recommended 65) and a score
of 70, one applied cap yields `conditional` while no caps yield
`recommended`. -/
theorem C4_witness :
    Verdict.generateLevel 70
        [{ category_name := "Edukacja", cat_score_fmt := 20, threshold := 35, cap := 70 }]
        { recommended := 65, conditional := 45 } = Verdict.VerdictLevel.conditional ∧
    Verdict.generateLevel 70 [] { recommended := 65, conditional := 45 } =
      Verdict.VerdictLevel.recommended :=
  ⟨((C4_verdict_levels 70 { recommended := 65, conditional := 45 }
        [{ category_name := "Edukacja", cat_score_fmt := 20, threshold := 35, cap := 70 }]).1
      (by simp)).2 (by norm_num),
   ((C4_verdict_levels 70 { recommended := 65, conditional := 45 } []).2 rfl).1.mpr
      (by norm_num)⟩

/-- C2 counterexample: a POI with a 5.0 rating and an absent review count
gets quality multiplier 1.03, not 1.0 — the review-count confidence
defaults to 0.3 (not 0) when reviews are missing, so the rating still
moves the multiplier. -/
theorem C2_counterexample :
    ratedNoReviewsPoi.user_ratings_total = none ∧
    ratedNoReviewsPoi.reviews_count = none ∧
    Engine.quality_multiplier ratedNoReviewsPoi = 103/100 ∧
    Engine.quality_multiplier ratedNoReviewsPoi ≠ 1 := by
  refine ⟨rfl, rfl, ?_, ?_⟩ <;>
    norm_num [Engine.quality_multiplier, ratedNoReviewsPoi, truthyQ, truthyZ, pyOrZ]

/-- C2 amended: for every POI whose review count is zero or absent, the
quality multiplier is 1.0 exactly when the rating is absent (or zero);
when a rating in [0, 5] is present, the adjustment is damped by the
default 0.3 review confidence, keeping the multiplier within
[0.97, 1.03] (and at most 1.0 if `low_reviews` caps the boost). -/
theorem C2_quality_multiplier_no_reviews (poi : Engine.POI)
    (hrev : ¬ truthyZ (pyOrZ poi.user_ratings_total poi.reviews_count))
    (hrat : ∀ x, poi.rating = some x → 0 ≤ x ∧ x ≤ 5) :
    (¬ truthyQ poi.rating → Engine.quality_multiplier poi = 1) ∧
    97/100 ≤ Engine.quality_multiplier poi ∧
    Engine.quality_multiplier poi ≤ 103/100 := by
  unfold Engine.quality_multiplier
  by_cases hq : truthyQ poi.rating
  · rw [if_neg (not_not_intro hq)]
    refine ⟨fun h => absurd hq h, ?_⟩
    rw [if_neg hrev]
    obtain ⟨x, hx⟩ : ∃ x, poi.rating = some x := by
      cases hr : poi.rating with
      | none => rw [hr] at hq; simp [truthyQ] at hq
      | some y => exact ⟨y, rfl⟩
    obtain ⟨hx0, hx5⟩ := hrat x hx
    rw [hx]
    simp only [Option.getD_some]
    split_ifs with hlr
    -- with and without the low_reviews cap the rating multiplier stays
    -- within [0.9, 1.1], so the damped multiplier stays within [0.97, 1.03]
    · constructor
      · have hlow : (9:ℚ)/10 ≤ min (9/10 + 1/5 * (x / 5)) 1 :=
          le_min (by linarith) (by norm_num)
        nlinarith [min_le_right ((9:ℚ)/10 + 1/5 * (x / 5)) 1]
      · have h1 : min ((9:ℚ)/10 + 1/5 * (x / 5)) 1 ≤ 1 := min_le_right _ _
        have hlow : (9:ℚ)/10 ≤ min (9/10 + 1/5 * (x / 5)) 1 :=
          le_min (by linarith) (by norm_num)
        nlinarith
    · constructor <;> nlinarith
  · rw [if_pos hq]
    exact ⟨fun _ => rfl, by norm_num, by norm_num⟩

/-- C2 witness: a POI with rating 4.0 and no reviews satisfies the
amended bounds. -/
theorem C2_witness :
    97/100 ≤ Engine.quality_multiplier ratedNoReviewsPoi4 ∧
    Engine.quality_multiplier ratedNoReviewsPoi4 ≤ 103/100 :=
  (C2_quality_multiplier_no_reviews ratedNoReviewsPoi4
    (by simp [ratedNoReviewsPoi4, pyOrZ, truthyZ])
    (by intro x hx
        simp only [ratedNoReviewsPoi4, Option.some.injEq] at hx
        subst hx
        norm_num)).2

/-- C9: the verdict string stored in the scoring result comes from the
thresholds on the final total alone, without the cap downgrade — on the
family profile with education scoring 20 the capped total is 70, at or
above the recommended threshold 65, so the stored verdict is
`recommended` while the verdict generator applied to the same result
returns `conditional`. -/
theorem C9_stored_verdict_ignores_caps :
    (Engine.calculate PROFILE_FAMILY exampleScores 100 0 none).total_score = 70 ∧
    (Engine.calculate PROFILE_FAMILY exampleScores 100 0 none).critical_caps_applied ≠ [] ∧
    (PROFILE_FAMILY.thresholds.recommended : ℚ) ≤
      (Engine.calculate PROFILE_FAMILY exampleScores 100 0 none).total_score ∧
    (Engine.calculate PROFILE_FAMILY exampleScores 100 0 none).verdict = "recommended" ∧
    Verdict.generateLevel
      (Engine.calculate PROFILE_FAMILY exampleScores 100 0 none).total_score
      (Engine.calculate PROFILE_FAMILY exampleScores 100 0 none).critical_caps_applied
      PROFILE_FAMILY.thresholds = Verdict.VerdictLevel.conditional := by
  refine ⟨?_, ?_, ?_, ?_, ?_⟩ <;>
    simp +decide [Engine.calculate, Engine.base_and_noise, Engine.fullCategoryScores,
      exampleScores, PROFILE_FAMILY, Engine.total_positive_weight,
      Engine.apply_critical_caps, Engine.mkCapMsg, VerdictThresholds.get_verdict,
      Verdict.generateLevel, Verdict.level_from_score] <;>
    norm_num

/-- Explicit Taylor bounds on `exp (-3/5)`, needed for the scenario-1
category score. -/
theorem exp_neg_three_fifths_bounds :
    (5487/10000 : ℝ) ≤ Real.exp (-(3/5)) ∧ Real.exp (-(3/5)) ≤ (5493/10000 : ℝ) := by
  have h := Real.exp_bound (x := (3:ℝ)/5) (by rw [abs_of_nonneg] <;> norm_num) (n := 5) (by norm_num)
  have hsum : ∑ m ∈ Finset.range 5, ((3:ℝ)/5) ^ m / m.factorial = 9107/5000 := by
    simp [Finset.sum_range_succ, Nat.factorial]
    norm_num
  rw [hsum] at h
  have h2 : |Real.exp (3/5) - 9107/5000| ≤ 243/312500 := by
    refine h.trans (le_of_eq ?_)
    rw [abs_of_nonneg (by norm_num : (0:ℝ) ≤ 3/5)]
    norm_num [Nat.factorial]
  have habs := abs_le.mp h2
  have hpos : (0:ℝ) < Real.exp (3/5) := Real.exp_pos _
  have hub : Real.exp (3/5) ≤ 4555444/2500000 := by
    have := habs.2
    linarith
  have hlb : (4551556:ℝ)/2500000 ≤ Real.exp (3/5) := by
    have := habs.1
    linarith
  have hy : (0:ℝ) < (Real.exp (3/5))⁻¹ := inv_pos.mpr hpos
  have hprod : (Real.exp (3/5))⁻¹ * Real.exp (3/5) = 1 := inv_mul_cancel₀ (ne_of_gt hpos)
  constructor
  · rw [Real.exp_neg]
    nlinarith [mul_le_mul_of_nonneg_left hub (le_of_lt hy)]
  · rw [Real.exp_neg]
    nlinarith [mul_le_mul_of_nonneg_left hlb (le_of_lt hy)]

/-- The saturation at utility sum 100 with the shops constant k = 0.006. -/
theorem saturating_eval :
    Engine.saturating_score 100 (3/500) = 100 * (1 - Real.exp (-(3/5))) := by
  unfold Engine.saturating_score
  rw [if_neg (by norm_num)]
  have hc : -(((3:ℚ)/500 : ℚ) : ℝ) * ((100:ℚ) : ℝ) = -(3/5) := by push_cast; ring
  rw [hc]
  have := Real.exp_pos (-(3/5))
  exact min_eq_right (by nlinarith)

/-- C6: one named shop at 100 m with a 600 m radius and the daily curve:
the distance score is 100, the quality and nameless multipliers are 1.0,
the utility sum is 100, there is no coverage bonus, the distance factor
is 0.4 + 0.6 = 1.0, and the final category score is
`100 * (1 - exp (-0.006 * 100))`, within 0.1 of 45.1. -/
theorem C6_scenario_shops :
    distance_score 100 600 DecayMode.daily = 100 ∧
    Engine.quality_multiplier scenarioShopPoi = 1 ∧
    (if scenarioShopPoi.nameless then Engine.NAMELESS_WEIGHT else 1) = 1 ∧
    (Engine.calculate_category_score PROFILE_URBAN "shops" [scenarioShopPoi] 600).utility_sum
      = 100 ∧
    (Engine.calculate_category_score PROFILE_URBAN "shops" [scenarioShopPoi] 600).coverage_bonus
      = 0 ∧
    Engine.distance_factor (some 100) 600 (PROFILE_URBAN.get_decay_mode "shops") = 1 ∧
    (Engine.calculate_category_score PROFILE_URBAN "shops" [scenarioShopPoi] 600).score
      = 100 * (1 - Real.exp (-(3/5))) ∧
    |(Engine.calculate_category_score PROFILE_URBAN "shops" [scenarioShopPoi] 600).score
      - 451/10| < 1/10 := by
  have hscore :
      (Engine.calculate_category_score PROFILE_URBAN "shops" [scenarioShopPoi] 600).score
        = 100 * (1 - Real.exp (-(3/5))) := by
    simp +decide [Engine.calculate_category_score, Engine.sorted_top_pois,
      Engine.category_utility_sum, Engine.poi_contribution, Engine.quality_multiplier,
      Engine.category_coverage_bonus, Engine.distance_factor, Engine.SATURATION_K,
      Engine.DEFAULT_SATURATION_K, Engine.DAILY_CATEGORIES, Engine.NAMELESS_WEIGHT,
      Engine.MIN_DISTANCE_FACTOR, distance_score, scenarioShopPoi, PROFILE_URBAN,
      ProfileConfig.get_decay_mode, DEFAULT_DECAY_MODES, Engine.MAX_POIS_FOR_SCORE,
      truthyQ, List.insertionSort, List.lookup]
    norm_num [List.filter_cons, Engine.COVERAGE_BONUS_3, Engine.COVERAGE_BONUS_6]
    rw [saturating_eval]
    have hexp := Real.exp_pos (-(3/5))
    have h1 : (100:ℝ) * (1 - Real.exp (-(3/5))) ≤ 100 := by nlinarith
    rw [min_eq_right h1]
  refine ⟨by norm_num [distance_score], ?_, rfl, ?_, ?_, ?_, hscore, ?_⟩
  · simp [Engine.quality_multiplier, scenarioShopPoi, truthyQ]
  · simp +decide [Engine.calculate_category_score, Engine.sorted_top_pois,
      Engine.category_utility_sum, Engine.poi_contribution, Engine.quality_multiplier,
      distance_score, scenarioShopPoi, PROFILE_URBAN, ProfileConfig.get_decay_mode,
      DEFAULT_DECAY_MODES, Engine.MAX_POIS_FOR_SCORE, truthyQ, List.insertionSort]
    norm_num
  · simp +decide [Engine.calculate_category_score, Engine.sorted_top_pois,
      Engine.category_coverage_bonus, Engine.DAILY_CATEGORIES, scenarioShopPoi,
      Engine.MAX_POIS_FOR_SCORE, List.insertionSort]
    norm_num [List.filter_cons, Engine.COVERAGE_BONUS_3, Engine.COVERAGE_BONUS_6]
  · simp +decide [Engine.distance_factor, Engine.MIN_DISTANCE_FACTOR, distance_score,
      PROFILE_URBAN, ProfileConfig.get_decay_mode, DEFAULT_DECAY_MODES]
    norm_num
  · rw [hscore]
    obtain ⟨hl, hu⟩ := exp_neg_three_fifths_bounds
    rw [abs_lt]
    constructor <;> nlinarith

/-- C3 counterexample: for a category outside the five important ones
(here `food`, family weight 0.03), changing its status from `ok` to
`error` leaves the confidence percentage unchanged — the data component
only inspects the important categories, so the claimed strict decrease
fails. -/
theorem C3_counterexample :
    DataQuality.calculate_confidence (DataQuality.setStatus covFoodOk "food" "error") "ok"
        DataQuality.IMPORTANT_CATEGORIES (some PROFILE_FAMILY.weights) =
      DataQuality.calculate_confidence covFoodOk "ok" DataQuality.IMPORTANT_CATEGORIES
        (some PROFILE_FAMILY.weights) := by
  simp +decide [DataQuality.calculate_confidence, DataQuality.provider_confidence,
    DataQuality.data_confidence, DataQuality.signal_confidence, DataQuality.all_cats,
    DataQuality.setStatus, DataQuality.IMPORTANT_CATEGORIES, covFoodOk, PROFILE_FAMILY,
    List.lookup, pyInt]

/-- C3 (amended): all else held equal, setting a category's status to
`empty` leaves the confidence unchanged when its absolute profile weight
is below 0.10, provided the status it replaces is not `error` on an
important category; and changing a category's status from `ok` to `error`
strictly decreases the confidence for the five important categories
(shops, transport, education, health, nature_place) — for any other
category the `error` status is never inspected and the confidence is
unchanged. -/
theorem C3_confidence_semantics (coverage : String → Option DataQuality.CategoryCoverage)
    (os : String) (ws : Option (List (String × ℚ))) (c : String)
    (cov : DataQuality.CategoryCoverage) (hc : coverage c = some cov) :
    (DataQuality.profile_weight_abs ws c < 1/10 →
      (c ∈ DataQuality.IMPORTANT_CATEGORIES → cov.status ≠ "error") →
      DataQuality.calculate_confidence (DataQuality.setStatus coverage c "empty") os
          DataQuality.IMPORTANT_CATEGORIES ws =
        DataQuality.calculate_confidence coverage os DataQuality.IMPORTANT_CATEGORIES ws) ∧
    (c ∈ DataQuality.IMPORTANT_CATEGORIES → cov.status = "ok" →
      DataQuality.calculate_confidence (DataQuality.setStatus coverage c "error") os
          DataQuality.IMPORTANT_CATEGORIES ws <
        DataQuality.calculate_confidence coverage os DataQuality.IMPORTANT_CATEGORIES ws) :=
  ⟨fun hw hnoterr => calculate_confidence_empty_eq coverage os ws c cov hc hw hnoterr,
   fun hmem hok => calculate_confidence_error_lt coverage os ws c cov hc hmem hok⟩

/-- C3 witness: with the family weights, blanking `food` (weight 0.03,
previous status `ok`) leaves the confidence unchanged, while failing
`shops` (an important category, previous status `ok`) strictly lowers
it. -/
theorem C3_witness :
    (DataQuality.calculate_confidence (DataQuality.setStatus covFoodOk "food" "empty") "ok"
        DataQuality.IMPORTANT_CATEGORIES (some PROFILE_FAMILY.weights) =
      DataQuality.calculate_confidence covFoodOk "ok" DataQuality.IMPORTANT_CATEGORIES
        (some PROFILE_FAMILY.weights)) ∧
    (DataQuality.calculate_confidence (DataQuality.setStatus covShopsOk "shops" "error") "ok"
        DataQuality.IMPORTANT_CATEGORIES (some PROFILE_FAMILY.weights) <
      DataQuality.calculate_confidence covShopsOk "ok" DataQuality.IMPORTANT_CATEGORIES
        (some PROFILE_FAMILY.weights)) :=
  ⟨(C3_confidence_semantics covFoodOk "ok" (some PROFILE_FAMILY.weights) "food"
      { status := "ok", kept_count := 3 } rfl).1
    (by simp +decide [DataQuality.profile_weight_abs, PROFILE_FAMILY, List.lookup]
        rw [abs_of_nonneg (by norm_num : (0:ℚ) ≤ 3/100)]
        norm_num)
    (fun h => absurd h (by decide)),
   (C3_confidence_semantics covShopsOk "ok" (some PROFILE_FAMILY.weights) "shops"
      { status := "ok", kept_count := 3 } rfl).2 (by decide) rfl⟩

namespace Dedupe

/-- Processing a concatenation processes the second part from the state
left by the first. -/
theorem dedupeAux_append (l2 l1 : List HPOI) : ∀ (sP : List String) (sF : List (String × ℤ)),
    dedupeAux (l1 ++ l2) sP sF =
      ((dedupeAux l1 sP sF).1 ++
          (dedupeAux l2 (dedupeAux l1 sP sF).2.1 (dedupeAux l1 sP sF).2.2).1,
        (dedupeAux l2 (dedupeAux l1 sP sF).2.1 (dedupeAux l1 sP sF).2.2).2.1,
        (dedupeAux l2 (dedupeAux l1 sP sF).2.1 (dedupeAux l1 sP sF).2.2).2.2) := by
  induction l1 with
  | nil => intro sP sF; simp [dedupeAux]
  | cons x xs ih =>
    intro sP sF
    rw [List.cons_append]
    simp only [dedupeAux]
    cases h : usedPlaceId x with
    | some pid =>
      dsimp only
      split_ifs with hmem
      · exact ih sP sF
      · rw [ih (pid :: sP) sF]
        simp
    | none =>
      dsimp only
      split_ifs with hmem
      · exact ih sP sF
      · rw [ih sP (fallback_key x :: sF)]
        simp

/-- The seen sets only grow during the dedup loop. -/
theorem dedupeAux_seen_mono (l : List HPOI) : ∀ (sP : List String) (sF : List (String × ℤ)),
    (∀ a ∈ sP, a ∈ (dedupeAux l sP sF).2.1) ∧ (∀ k ∈ sF, k ∈ (dedupeAux l sP sF).2.2) := by
  induction l with
  | nil => intro sP sF; exact ⟨fun a ha => ha, fun k hk => hk⟩
  | cons x xs ih =>
    intro sP sF
    simp only [dedupeAux]
    cases h : usedPlaceId x with
    | some pid =>
      dsimp only
      split_ifs with hmem
      · exact ih sP sF
      · refine ⟨fun a ha => ?_, fun k hk => (ih (pid :: sP) sF).2 k hk⟩
        exact (ih (pid :: sP) sF).1 a (List.mem_cons_of_mem pid ha)
    | none =>
      dsimp only
      split_ifs with hmem
      · exact ih sP sF
      · refine ⟨fun a ha => (ih sP (fallback_key x :: sF)).1 a ha, fun k hk => ?_⟩
        exact (ih sP (fallback_key x :: sF)).2 k (List.mem_cons_of_mem _ hk)

/-- After the loop runs, every processed POI's key is in the seen sets. -/
theorem dedupeAux_covered (l : List HPOI) : ∀ (sP : List String) (sF : List (String × ℤ)),
    ∀ p ∈ l, keyIn p (dedupeAux l sP sF).2.1 (dedupeAux l sP sF).2.2 := by
  induction l with
  | nil => intro sP sF p hp; exact absurd hp (List.not_mem_nil p)
  | cons x xs ih =>
    intro sP sF p hp
    rcases List.mem_cons.mp hp with rfl | hmem2
    · simp only [dedupeAux]
      cases h : usedPlaceId p with
      | some pid =>
        dsimp only
        unfold keyIn
        rw [h]
        split_ifs with hmem
        · exact (dedupeAux_seen_mono xs sP sF).1 pid hmem
        · exact (dedupeAux_seen_mono xs (pid :: sP) sF).1 pid (List.mem_cons_self pid sP)
      | none =>
        dsimp only
        unfold keyIn
        rw [h]
        split_ifs with hmem
        · exact (dedupeAux_seen_mono xs sP sF).2 _ hmem
        · exact (dedupeAux_seen_mono xs sP (fallback_key p :: sF)).2 _
            (List.mem_cons_self _ sF)
    · simp only [dedupeAux]
      cases h : usedPlaceId x with
      | some pid =>
        dsimp only
        split_ifs with hmem
        · exact ih sP sF p hmem2
        · exact ih (pid :: sP) sF p hmem2
      | none =>
        dsimp only
        split_ifs with hmem
        · exact ih sP sF p hmem2
        · exact ih sP (fallback_key x :: sF) p hmem2

/-- A list whose keys are all already seen contributes nothing. -/
theorem dedupeAux_stale (l : List HPOI) : ∀ (sP : List String) (sF : List (String × ℤ)),
    (∀ p ∈ l, keyIn p sP sF) → dedupeAux l sP sF = ([], sP, sF) := by
  induction l with
  | nil => intro sP sF _; rfl
  | cons x xs ih =>
    intro sP sF h
    have hx := h x (List.mem_cons_self x xs)
    simp only [dedupeAux]
    unfold keyIn at hx
    cases hu : usedPlaceId x with
    | some pid =>
      rw [hu] at hx
      dsimp only
      rw [if_pos hx]
      exact ih sP sF (fun p hp => h p (List.mem_cons_of_mem x hp))
    | none =>
      rw [hu] at hx
      dsimp only
      rw [if_pos hx]
      exact ih sP sF (fun p hp => h p (List.mem_cons_of_mem x hp))

/-- Kept POIs were not already seen when the loop started. -/
theorem dedupeAux_kept_fresh (l : List HPOI) : ∀ (sP : List String) (sF : List (String × ℤ)),
    ∀ q ∈ (dedupeAux l sP sF).1, ¬ keyIn q sP sF := by
  induction l with
  | nil => intro sP sF q hq; exact absurd hq (List.not_mem_nil q)
  | cons x xs ih =>
    intro sP sF q hq
    rw [show dedupeAux (x :: xs) sP sF = (match usedPlaceId x with
      | some pid =>
        if pid ∈ sP then dedupeAux xs sP sF
        else
          ((x :: (dedupeAux xs (pid :: sP) sF).1, (dedupeAux xs (pid :: sP) sF).2.1,
            (dedupeAux xs (pid :: sP) sF).2.2))
      | none =>
        if fallback_key x ∈ sF then dedupeAux xs sP sF
        else
          ((x :: (dedupeAux xs sP (fallback_key x :: sF)).1,
            (dedupeAux xs sP (fallback_key x :: sF)).2.1,
            (dedupeAux xs sP (fallback_key x :: sF)).2.2)) : _ ) from rfl] at hq
    cases hu : usedPlaceId x with
    | some pid =>
      rw [hu] at hq
      dsimp only at hq
      by_cases hmem : pid ∈ sP
      · rw [if_pos hmem] at hq
        exact ih sP sF q hq
      · rw [if_neg hmem] at hq
        rcases List.mem_cons.mp hq with rfl | hq2
        · unfold keyIn
          rw [hu]
          exact hmem
        · intro hkey
          refine ih (pid :: sP) sF q hq2 ?_
          unfold keyIn at hkey ⊢
          cases hq3 : usedPlaceId q with
          | some j => rw [hq3] at hkey; dsimp only at hkey ⊢; exact List.mem_cons_of_mem pid hkey
          | none => rw [hq3] at hkey; dsimp only at hkey ⊢; exact hkey
    | none =>
      rw [hu] at hq
      dsimp only at hq
      by_cases hmem : fallback_key x ∈ sF
      · rw [if_pos hmem] at hq
        exact ih sP sF q hq
      · rw [if_neg hmem] at hq
        rcases List.mem_cons.mp hq with rfl | hq2
        · unfold keyIn
          rw [hu]
          exact hmem
        · intro hkey
          refine ih sP (fallback_key x :: sF) q hq2 ?_
          unfold keyIn at hkey ⊢
          cases hq3 : usedPlaceId q with
          | some j => rw [hq3] at hkey; dsimp only at hkey ⊢; exact hkey
          | none => rw [hq3] at hkey; dsimp only at hkey ⊢; exact List.mem_cons_of_mem _ hkey

/-- The key-distinctness relation is symmetric. -/
theorem distinctKeys_symm : ∀ {p q : HPOI}, distinctKeys p q → distinctKeys q p := by
  intro p q h
  unfold distinctKeys at h ⊢
  cases hp : usedPlaceId p with
  | some a =>
    cases hq : usedPlaceId q with
    | some b => rw [hp, hq] at h; dsimp only at h ⊢; exact Ne.symm h
    | none => dsimp only
  | none =>
    cases hq : usedPlaceId q with
    | some b => dsimp only
    | none => rw [hp, hq] at h; dsimp only at h ⊢; exact Ne.symm h

/-- The kept list is pairwise key-distinct. -/
theorem dedupeAux_pairwise (l : List HPOI) : ∀ (sP : List String) (sF : List (String × ℤ)),
    ((dedupeAux l sP sF).1).Pairwise distinctKeys := by
  induction l with
  | nil => intro sP sF; exact List.Pairwise.nil
  | cons x xs ih =>
    intro sP sF
    simp only [dedupeAux]
    cases hu : usedPlaceId x with
    | some pid =>
      dsimp only
      split_ifs with hmem
      · exact ih sP sF
      · refine List.Pairwise.cons (fun q hq => ?_) (ih (pid :: sP) sF)
        have hfresh := dedupeAux_kept_fresh xs (pid :: sP) sF q hq
        unfold distinctKeys
        unfold keyIn at hfresh
        rw [hu]
        cases hq3 : usedPlaceId q with
        | some j =>
          rw [hq3] at hfresh
          dsimp only at hfresh ⊢
          intro heq
          exact hfresh (heq ▸ List.mem_cons_self pid sP)
        | none => dsimp only
    | none =>
      dsimp only
      split_ifs with hmem
      · exact ih sP sF
      · refine List.Pairwise.cons (fun q hq => ?_) (ih sP (fallback_key x :: sF))
        have hfresh := dedupeAux_kept_fresh xs sP (fallback_key x :: sF) q hq
        unfold distinctKeys
        unfold keyIn at hfresh
        rw [hu]
        cases hq3 : usedPlaceId q with
        | some j => dsimp only
        | none =>
          rw [hq3] at hfresh
          dsimp only at hfresh ⊢
          intro heq
          exact hfresh (heq ▸ List.mem_cons_self _ sF)

/-- A pairwise key-distinct list whose keys are all unseen is kept
verbatim. -/
theorem dedupeAux_of_pairwise_fresh (l : List HPOI) :
    ∀ (sP : List String) (sF : List (String × ℤ)),
    l.Pairwise distinctKeys → (∀ p ∈ l, ¬ keyIn p sP sF) →
    (dedupeAux l sP sF).1 = l := by
  induction l with
  | nil => intro sP sF _ _; rfl
  | cons x xs ih =>
    intro sP sF hpair hfresh
    have hx := hfresh x (List.mem_cons_self x xs)
    simp only [dedupeAux]
    unfold keyIn at hx
    cases hu : usedPlaceId x with
    | some pid =>
      rw [hu] at hx
      dsimp only at hx ⊢
      rw [if_neg hx]
      dsimp only
      congr 1
      refine ih (pid :: sP) sF (List.Pairwise.of_cons hpair) (fun q hq => ?_)
      have hq1 := hfresh q (List.mem_cons_of_mem x hq)
      have hxq := (List.pairwise_cons.mp hpair).1 q hq
      unfold distinctKeys at hxq
      rw [hu] at hxq
      unfold keyIn at hq1 ⊢
      cases hq3 : usedPlaceId q with
      | some j =>
        rw [hq3] at hq1 hxq
        dsimp only at hq1 hxq ⊢
        intro hmem2
        rcases List.mem_cons.mp hmem2 with heq | hmem3
        · exact hxq heq.symm
        · exact hq1 hmem3
      | none =>
        rw [hq3] at hq1
        dsimp only at hq1 ⊢
        exact hq1
    | none =>
      rw [hu] at hx
      dsimp only at hx ⊢
      rw [if_neg hx]
      dsimp only
      congr 1
      refine ih sP (fallback_key x :: sF) (List.Pairwise.of_cons hpair) (fun q hq => ?_)
      have hq1 := hfresh q (List.mem_cons_of_mem x hq)
      have hxq := (List.pairwise_cons.mp hpair).1 q hq
      unfold distinctKeys at hxq
      rw [hu] at hxq
      unfold keyIn at hq1 ⊢
      cases hq3 : usedPlaceId q with
      | some j =>
        rw [hq3] at hq1
        dsimp only at hq1 ⊢
        exact hq1
      | none =>
        rw [hq3] at hq1 hxq
        dsimp only at hq1 hxq ⊢
        intro hmem2
        rcases List.mem_cons.mp hmem2 with heq | hmem3
        · exact hxq heq.symm
        · exact hq1 hmem3

/-- Deduplicating a category list concatenated with itself gives the same
output as deduplicating it once. -/
theorem dedupe_category_self_append (l : List HPOI) :
    dedupe_category (l ++ l) = dedupe_category l := by
  unfold dedupe_category
  rw [dedupeAux_append l l]
  rw [dedupeAux_stale l (dedupeAux l [] []).2.1 (dedupeAux l [] []).2.2
    (fun p hp => dedupeAux_covered l [] [] p hp)]
  simp

/-- The surviving POIs of a category are pairwise key-distinct. -/
theorem dedupe_category_pairwise (l : List HPOI) :
    (dedupe_category l).Pairwise distinctKeys := by
  unfold dedupe_category
  refine List.Pairwise.sublist (List.take_sublist _ _) ?_
  exact (List.Perm.pairwise_iff (fun h => distinctKeys_symm h)
    (List.perm_insertionSort hLE (dedupeAux l [] []).1)).mpr (dedupeAux_pairwise l [] [])

/-- Re-running the dedup pass on its own output changes nothing. -/
theorem dedupe_category_idem (l : List HPOI) :
    dedupe_category (dedupe_category l) = dedupe_category l := by
  have hpair := dedupe_category_pairwise l
  have hfresh : ∀ p ∈ dedupe_category l, ¬ keyIn p ([] : List String) ([] : List (String × ℤ)) := by
    intro p _
    unfold keyIn
    cases usedPlaceId p <;> simp
  have hsorted : List.Sorted hLE (dedupe_category l) := by
    unfold dedupe_category
    exact List.Pairwise.sublist (List.take_sublist _ _)
      (List.sorted_insertionSort hLE (dedupeAux l [] []).1)
  have hlen : (dedupe_category l).length ≤ MAX_POIS_PER_CATEGORY := by
    unfold dedupe_category
    rw [List.length_take]
    exact min_le_left _ _
  have key : dedupe_category (dedupe_category l) =
      List.take MAX_POIS_PER_CATEGORY
        (List.insertionSort hLE (dedupeAux (dedupe_category l) [] []).1) := rfl
  rw [key, dedupeAux_of_pairwise_fresh (dedupe_category l) [] [] hpair hfresh,
    List.Sorted.insertionSort_eq hsorted, List.take_of_length_le hlen]

end Dedupe

/-- C7 counterexample: a POI carrying a place id is never checked against
the name+distance-bucket key, so a with-id POI and an id-less POI sharing
the same lowercased name and the same 20 m bucket both survive the dedup
pass — the claimed "no two surviving POIs share both a lowercased name
and the same 20 m distance bucket" fails. -/
theorem C7_counterexample :
    Dedupe.dedupe_category [dupWithId, dupWithoutId] = [dupWithId, dupWithoutId] ∧
    pyLower dupWithId.name = pyLower dupWithoutId.name ∧
    pyRound (dupWithId.distance_m / 20) * 20 = pyRound (dupWithoutId.distance_m / 20) * 20 := by
  refine ⟨?_, rfl, rfl⟩
  simp +decide [Dedupe.dedupe_category, Dedupe.dedupeAux, Dedupe.usedPlaceId,
    Dedupe.MAX_POIS_PER_CATEGORY, dupWithId, dupWithoutId, pyOrS, truthyS,
    List.insertionSort, List.orderedInsert, Dedupe.hLE]

/-- C7 (amended): over a per-category POI map with non-null distances, the
dedup pass is idempotent — merging each category's list with itself
changes nothing, and re-running the pass on its own output changes
nothing — and within each surviving category no two POIs share a truthy
place id, and no two POIs lacking place ids share both a lowercased name
and the same 20 m distance bucket (a POI with a place id is exempt from
the name+bucket check). -/
theorem C7_dedupe_idempotent (m : List (String × List Dedupe.HPOI)) :
    Dedupe.dedupe_pois (m.map (fun cl => (cl.1, cl.2 ++ cl.2))) = Dedupe.dedupe_pois m ∧
    Dedupe.dedupe_pois (Dedupe.dedupe_pois m) = Dedupe.dedupe_pois m ∧
    ∀ cl ∈ Dedupe.dedupe_pois m, cl.2.Pairwise Dedupe.distinctKeys := by
  refine ⟨?_, ?_, ?_⟩
  · unfold Dedupe.dedupe_pois
    rw [List.map_map]
    refine List.map_congr_left (fun cl _ => ?_)
    simp only [Function.comp_apply]
    rw [Dedupe.dedupe_category_self_append]
  · unfold Dedupe.dedupe_pois
    rw [List.map_map]
    refine List.map_congr_left (fun cl _ => ?_)
    simp only [Function.comp_apply]
    rw [Dedupe.dedupe_category_idem]
  · intro cl hcl
    obtain ⟨cl0, _, rfl⟩ := List.mem_map.mp hcl
    exact Dedupe.dedupe_category_pairwise cl0.2

end Loktis
